import Mathlib

/-!
Verification development for the cocli CoRIM command-line front end.

The Go sources under `cmd/` are shallowly embedded: byte strings become
`List Nat`, fallible operations become `Except String`, and the external
collaborators (the veraison corim/cots/swid codec library, the filesystem,
JSON marshalling) are passed in as explicit records of functions, exactly as
the spec treats them: opaque interfaces whose success or failure drives the
control flow that the claims are about.
-/

namespace Cocli

/-- A byte, kept as an unbounded natural number; only values below 256 occur. -/
abbrev Byte := Nat

/-- A byte string, e.g. the contents of a CBOR file. -/
abbrev Bytes := List Byte

/-- CoRIM signing metadata (signer identity and validity window).  The core
treats it as opaque: only the external codec functions inspect it. -/
structure Meta where
  blob : Bytes
deriving DecidableEq, Repr

/-- The unsigned CoRIM container: optional profile and validity carried over
from the template, plus the ordered list of raw tagged-artifact byte strings
(each entry is identifier bytes followed by payload bytes). -/
structure UnsignedCorim where
  profile : Option String
  validity : Option (Nat × Nat)
  tags : List Bytes
deriving DecidableEq, Repr

/-- A signed CoRIM: meta envelope plus the embedded unsigned CoRIM, as exposed
by a successful COSE decode. -/
structure SignedCorim where
  meta : Meta
  unsignedCorim : UnsignedCorim
deriving DecidableEq, Repr

/-- An opaque decoded CoMID artifact. -/
structure Comid where
  blob : Bytes
deriving DecidableEq, Repr

/-- An opaque decoded CoSWID artifact (swid.SoftwareIdentity). -/
structure Coswid where
  blob : Bytes
deriving DecidableEq, Repr

/-- An opaque decoded CoTS artifact (cots.ConciseTaStore). -/
structure Cots where
  blob : Bytes
deriving DecidableEq, Repr

/-- An opaque parsed signing key. -/
structure SigKey where
  blob : Bytes
deriving DecidableEq, Repr

/-- An opaque parsed certificate. -/
structure Cert where
  blob : Bytes
deriving DecidableEq, Repr

/-- The 3-byte CBOR tag identifier for CoMID (corim.ComidTag, CBOR tag 506). -/
def ComidTag : Bytes := [0xd9, 0x01, 0xfa]

/-- The 3-byte CBOR tag identifier for CoSWID (corim.CoswidTag, CBOR tag 505). -/
def CoswidTag : Bytes := [0xd9, 0x01, 0xf9]

/-- The 3-byte CBOR tag identifier for CoTS (cots.CotsTag, CBOR tag 507). -/
def CotsTag : Bytes := [0xd9, 0x01, 0xfb]

/-- The filesystem abstraction (afero.Fs): reading returns file contents or an
error message, writing returns unit or an error message. -/
structure FS where
  read : String → Except String Bytes
  write : String → Bytes → Except String Unit

/-- True when an `Except` holds an error. -/
def exceptIsErr {ε α : Type} : Except ε α → Bool
  | .error _ => true
  | .ok _ => false

/-- The external codec operations used by the display command: the two
top-level decoders, JSON marshalling, and the three per-kind tag printers
(printComid, printCoswid, printCots return nil or a decode error in Go). -/
structure DisplayCodecs where
  fromCOSE : Bytes → Except String SignedCorim
  fromCBOR : Bytes → Except String UnsignedCorim
  marshalMeta : Meta → Except String String
  marshalUnsigned : UnsignedCorim → Except String String
  printComid : Bytes → String → Except String Unit
  printCoswid : Bytes → String → Except String Unit
  printCots : Bytes → String → Except String Unit

/-- One observable outcome of processing a single entry in `displayTags`:
either the index-annotated skip warning for a short tag, a successful render,
an index-annotated per-kind decode warning, or the unmatched-identifier report
carrying the raw identifier bytes. -/
inductive TagEvent where
  | skipShort (i : Nat)
  | comidOk (i : Nat)
  | comidErr (i : Nat) (e : String)
  | coswidOk (i : Nat)
  | coswidErr (i : Nat) (e : String)
  | cotsOk (i : Nat)
  | cotsErr (i : Nat) (e : String)
  | unmatched (ident : Bytes)
deriving DecidableEq, Repr

/-- The header string passed to the per-kind printers for the tag at index i. -/
def tagHdr (i : Nat) : String := ">> [ " ++ toString i ++ " ]"

/-- Processing of one tag entry at index `i` in `displayTags`
(corimDisplay.go lines 138-166): entries shorter than 4 bytes are skipped
with a warning; otherwise the first 3 bytes are matched against the
registered tag identifiers and the matching printer is dispatched on the
remaining payload; identifiers matching no registered kind are reported as
unmatched with the raw identifier bytes. -/
def displayTagAt (C : DisplayCodecs) (i : Nat) (e : Bytes) : TagEvent :=
  if e.length < 4 then .skipShort i
  else
    let cborTag := e.take 3
    let cborData := e.drop 3
    if cborTag = ComidTag then
      match C.printComid cborData (tagHdr i) with
      | .ok _ => .comidOk i
      | .error err => .comidErr i err
    else if cborTag = CoswidTag then
      match C.printCoswid cborData (tagHdr i) with
      | .ok _ => .coswidOk i
      | .error err => .coswidErr i err
    else if cborTag = CotsTag then
      match C.printCots cborData (tagHdr i) with
      | .ok _ => .cotsOk i
      | .error err => .cotsErr i err
    else .unmatched cborTag

/-- The indexed iteration of `displayTags`, with `i` the index of the first
remaining entry, mirroring the Go range loop. -/
def displayTagsFrom (C : DisplayCodecs) (i : Nat) : List Bytes → List TagEvent
  | [] => []
  | e :: rest => displayTagAt C i e :: displayTagsFrom C (i + 1) rest

/-- displayTags (corimDisplay.go lines 137-167): process every tag in order,
starting at index 0.  The Go function returns nothing: it cannot fail, it
only emits one event per entry. -/
def displayTags (C : DisplayCodecs) (tags : List Bytes) : List TagEvent :=
  displayTagsFrom C 0 tags

/-- The observable successful outcome of `display`: which decode path
succeeded, the JSON renderings printed, and the tag events when show-tags was
requested. -/
structure DisplayResult where
  fromSigned : Bool
  metaJSON : Option String
  corimJSON : String
  tagEvents : Option (List TagEvent)
deriving DecidableEq, Repr

/-- display (corimDisplay.go lines 64-134): read the file; try to decode as a
signed CoRIM; on success render Meta and the embedded unsigned CoRIM (and the
tags when requested); if the signed decode failed, attempt the unsigned
decode, and if that also fails surface the unsigned decode error under the
dual-mode prefix; otherwise render the unsigned CoRIM (and the tags when
requested). -/
def display (C : DisplayCodecs) (fs : FS) (corimFile : String) (showTags : Bool) :
    Except String DisplayResult :=
  match fs.read corimFile with
  | .error e => .error ("error loading CoRIM from " ++ corimFile ++ ": " ++ e)
  | .ok corimCBOR =>
    match C.fromCOSE corimCBOR with
    | .ok s =>
      match C.marshalMeta s.meta with
      | .error e => .error ("error encoding CoRIM Meta from " ++ corimFile ++ ": " ++ e)
      | .ok metaJSON =>
        match C.marshalUnsigned s.unsignedCorim with
        | .error e => .error ("error encoding unsigned CoRIM from " ++ corimFile ++ ": " ++ e)
        | .ok corimJSON =>
          .ok { fromSigned := true, metaJSON := some metaJSON, corimJSON := corimJSON,
                tagEvents := if showTags then some (displayTags C s.unsignedCorim.tags) else none }
    | .error _ =>
      match C.fromCBOR corimCBOR with
      | .error e => .error ("error decoding CoRIM (signed or unsigned) from " ++ corimFile ++ ": " ++ e)
      | .ok u =>
        match C.marshalUnsigned u with
        | .error e => .error ("error encoding unsigned CoRIM from " ++ corimFile ++ ": " ++ e)
        | .ok corimJSON =>
          .ok { fromSigned := false, metaJSON := none, corimJSON := corimJSON,
                tagEvents := if showTags then some (displayTags C u.tags) else none }

/-- checkCorimDisplayArgs (corimDisplay.go lines 56-62): a missing or empty
file flag is the usage error "no CoRIM supplied". -/
def checkCorimDisplayArgs (corimFile : Option String) : Except String Unit :=
  match corimFile with
  | none => .error "no CoRIM supplied"
  | some f => if f = "" then .error "no CoRIM supplied" else .ok ()

/-- Chars of `l` that follow the last occurrence of `c` (all of `l` when `c`
does not occur). -/
def afterLastChar (c : Char) (l : List Char) : List Char :=
  l.foldl (fun acc x => if x = c then [] else acc ++ [x]) []

/-- Remove the suffix starting at the last dot, when a dot occurs. -/
def dropFromLastDot (l : List Char) : List Char :=
  match (l.reverse.dropWhile (fun x => x ≠ '.')) with
  | [] => l
  | _ :: restRev => restRev.reverse

/-- Modelled from the spec: `makeFileName` is part of this repository but not
under src/ (only its callers are); per the spec, the default output name
"derives from the template filename" — join `dirPath` with the basename of
`baseName`, its extension replaced by `ext`. -/
def makeFileName (dirPath baseName ext : String) : String :=
  let base := afterLastChar '/' baseName.toList
  let stem := dropFromLastDot base
  let name := String.mk (stem ++ ext.toList)
  if dirPath = "" then name else dirPath ++ "/" ++ name

/-- The external codec operations used by the create command: template
decoding, the three per-kind artifact decoders, their validators and
(tag-payload) encoders used by the add operations, and the manifest-level
Valid and ToCBOR. -/
structure CreateCodecs where
  fromJSON : Bytes → Except String UnsignedCorim
  comidFromCBOR : Bytes → Except String Comid
  coswidFromCBOR : Bytes → Except String Coswid
  cotsFromCBOR : Bytes → Except String Cots
  comidValid : Comid → Bool
  coswidValid : Coswid → Bool
  cotsValid : Cots → Bool
  comidEncode : Comid → Bytes
  coswidEncode : Coswid → Bytes
  cotsEncode : Cots → Bytes
  valid : UnsignedCorim → Except String Unit
  toCBOR : UnsignedCorim → Except String Bytes

/-- Modelled from the spec: corim.UnsignedCorim.AddComid belongs to the
external corim library; per spec section 4.3, an add operation runs the
artifact validator and on success appends the identifier-tagged payload to
the tag list, while on failure (Go returns nil) it leaves the manifest
unchanged. -/
def AddComid (C : CreateCodecs) (c : UnsignedCorim) (m : Comid) : Option UnsignedCorim :=
  if C.comidValid m then some { c with tags := c.tags ++ [ComidTag ++ C.comidEncode m] }
  else none

/-- Modelled from the spec: corim.UnsignedCorim.AddCoswid, as for `AddComid`. -/
def AddCoswid (C : CreateCodecs) (c : UnsignedCorim) (s : Coswid) : Option UnsignedCorim :=
  if C.coswidValid s then some { c with tags := c.tags ++ [CoswidTag ++ C.coswidEncode s] }
  else none

/-- Modelled from the spec: corim.UnsignedCorim.AddCots, as for `AddComid`. -/
def AddCots (C : CreateCodecs) (c : UnsignedCorim) (t : Cots) : Option UnsignedCorim :=
  if C.cotsValid t then some { c with tags := c.tags ++ [CotsTag ++ C.cotsEncode t] }
  else none

/-- The CoMID loop of corimTemplateToCBOR (corimCreate.go lines 143-166):
read each file, decode it, and add it to the manifest; any failure aborts
with the corresponding error message. -/
def addComids (C : CreateCodecs) (fs : FS) : UnsignedCorim → List String → Except String UnsignedCorim
  | c, [] => .ok c
  | c, comidFile :: rest => do
    let comidCBOR ← (fs.read comidFile).mapError
      (fun e => "error loading CoMID from " ++ comidFile ++ ": " ++ e)
    let m ← (C.comidFromCBOR comidCBOR).mapError
      (fun e => "error loading CoMID from " ++ comidFile ++ ": " ++ e)
    match AddComid C c m with
    | none => .error ("error adding CoMID from " ++ comidFile ++
        " (check its validity using the \"comid validate\" sub-command)")
    | some c2 => addComids C fs c2 rest

/-- The CoSWID loop of corimTemplateToCBOR (corimCreate.go lines 168-188). -/
def addCoswids (C : CreateCodecs) (fs : FS) : UnsignedCorim → List String → Except String UnsignedCorim
  | c, [] => .ok c
  | c, coswidFile :: rest => do
    let coswidCBOR ← (fs.read coswidFile).mapError
      (fun e => "error loading CoSWID from " ++ coswidFile ++ ": " ++ e)
    let s ← (C.coswidFromCBOR coswidCBOR).mapError
      (fun e => "error loading CoSWID from " ++ coswidFile ++ ": " ++ e)
    match AddCoswid C c s with
    | none => .error ("error adding CoSWID from " ++ coswidFile)
    | some c2 => addCoswids C fs c2 rest

/-- The CoTS loop of corimTemplateToCBOR (corimCreate.go lines 190-210). -/
def addCotsAll (C : CreateCodecs) (fs : FS) : UnsignedCorim → List String → Except String UnsignedCorim
  | c, [] => .ok c
  | c, cotsFile :: rest => do
    let cotsCBOR ← (fs.read cotsFile).mapError
      (fun e => "error loading CoTS from " ++ cotsFile ++ ": " ++ e)
    let t ← (C.cotsFromCBOR cotsCBOR).mapError
      (fun e => "error loading CoTS from " ++ cotsFile ++ ": " ++ e)
    match AddCots C c t with
    | none => .error ("error adding CoTS from " ++ cotsFile)
    | some c2 => addCotsAll C fs c2 rest

/-- The output file name chosen by corimTemplateToCBOR (corimCreate.go lines
222-226): the explicit output name when supplied and non-empty, otherwise the
template basename with a .cbor extension. -/
def createOutputName (outputFile : Option String) (tmplFile : String) : String :=
  match outputFile with
  | none => makeFileName "" tmplFile ".cbor"
  | some o => if o = "" then makeFileName "" tmplFile ".cbor" else o

/-- The failure-propagating pipeline of corimTemplateToCBOR up to (and
excluding) the final file write: load and decode the template, run the three
artifact loops, run Valid, then ToCBOR; every Go early return is an `Except`
error carrying the exact message. -/
def createPipeline (C : CreateCodecs) (fs : FS) (tmplFile : String)
    (comidFiles coswidFiles cotsFiles : List String) : Except String (UnsignedCorim × Bytes) := do
  let tmplData ← (fs.read tmplFile).mapError
    (fun e => "error loading template from " ++ tmplFile ++ ": " ++ e)
  let c0 ← (C.fromJSON tmplData).mapError
    (fun e => "error decoding template from " ++ tmplFile ++ ": " ++ e)
  let c1 ← addComids C fs c0 comidFiles
  let c2 ← addCoswids C fs c1 coswidFiles
  let c3 ← addCotsAll C fs c2 cotsFiles
  let _ ← (C.valid c3).mapError (fun e => "error validating CoRIM: " ++ e)
  let corimCBOR ← (C.toCBOR c3).mapError (fun e => "error encoding CoRIM to CBOR: " ++ e)
  pure (c3, corimCBOR)

/-- corimTemplateToCBOR (corimCreate.go lines 127-234).  The second component
records every write the operation performed on the filesystem (the Go code
has a single WriteFile call, executed only after the pipeline succeeded). -/
def corimTemplateToCBOR (C : CreateCodecs) (fs : FS) (tmplFile : String)
    (comidFiles coswidFiles cotsFiles : List String) (outputFile : Option String) :
    Except String String × List (String × Bytes) :=
  match createPipeline C fs tmplFile comidFiles coswidFiles cotsFiles with
  | .error e => (.error e, [])
  | .ok (_, corimCBOR) =>
    let corimFile := createOutputName outputFile tmplFile
    match fs.write corimFile corimCBOR with
    | .error e =>
      (.error ("error saving CoRIM to file " ++ corimFile ++ ": " ++ e), [(corimFile, corimCBOR)])
    | .ok _ => (.ok corimFile, [(corimFile, corimCBOR)])

/-- The create command flags (corimCreate.go lines 18-27). -/
structure CreateArgs where
  templateFile : Option String
  comidFiles : List String
  comidDirs : List String
  coswidFiles : List String
  coswidDirs : List String
  cotsFiles : List String
  cotsDirs : List String
  outputFile : Option String

/-- checkCorimCreateArgs (corimCreate.go lines 113-125): a missing or empty
template flag, then zero supplied artifact files and folders, are usage
errors. -/
def checkCorimCreateArgs (a : CreateArgs) : Except String Unit :=
  match a.templateFile with
  | none => .error "no CoRIM template supplied"
  | some f =>
    if f = "" then .error "no CoRIM template supplied"
    else if a.comidDirs.length + a.comidFiles.length + a.coswidDirs.length +
        a.coswidFiles.length + a.cotsDirs.length + a.cotsFiles.length = 0 then
      .error "no CoMID, CoSWID or CoTS files or folders supplied"
    else .ok ()

/-- The create command body (corimCreate.go lines 57-79): check the args,
expand files and directories through filesList (repository code not under
src/, abstracted here as the `flist` parameter), fail when the expansion is
empty, and otherwise run corimTemplateToCBOR. -/
def corimCreateRun (C : CreateCodecs) (fs : FS)
    (flist : FS → List String → List String → String → List String) (a : CreateArgs) :
    Except String String × List (String × Bytes) :=
  match checkCorimCreateArgs a with
  | .error e => (.error e, [])
  | .ok _ =>
    let comidFilesList := flist fs a.comidFiles a.comidDirs ".cbor"
    let coswidFilesList := flist fs a.coswidFiles a.coswidDirs ".cbor"
    let cotsFilesList := flist fs a.cotsFiles a.cotsDirs ".cbor"
    if comidFilesList.length + coswidFilesList.length + cotsFilesList.length = 0 then
      (.error "no CoMID, CoSWID or CoTS files found", [])
    else
      corimTemplateToCBOR C fs (a.templateFile.getD "") comidFilesList coswidFilesList
        cotsFilesList a.outputFile

/-- True when an optional string flag was actually supplied (non-nil and
non-empty, the Go idiom `f != nil && *f != ""`). -/
def optSupplied : Option String → Bool
  | none => false
  | some s => s ≠ ""

/-- The external operations used by the sign command: the unsigned CoRIM
decoder, the Meta JSON decoder and validator, the JWK key parser, the
certificate and intermediate-chain parsers, and the COSE signing operation
itself. -/
structure SignCodecs where
  unsignedFromCBOR : Bytes → Except String UnsignedCorim
  metaFromJSON : Bytes → Except String Meta
  metaValid : Meta → Except String Unit
  keyFromJWK : Bytes → Except String SigKey
  certDecode : Bytes → Except String Cert
  intermediatesDecode : Bytes → Except String (List Cert)
  signIt : Meta → UnsignedCorim → SigKey → Option Cert → List Cert → Except String Bytes

/-- Modelled from the spec: the sign command workflow (corimSign.go is not
under src/; only its tests are).  Per spec section 4.4 and the observable
test behaviour: load and decode the unsigned CoRIM, load, decode and
validate the Meta, load and parse the key; supplying intermediates without a
signing certificate is a hard failure with the exact message "cannot add
intermediate certificates without a signing certificate"; otherwise the
certificate and the intermediates, when supplied, are loaded and parsed, and
the COSE signing operation produces the output bytes. -/
def corimSignPipeline (C : SignCodecs) (fs : FS) (corimFile metaFile keyFile : String)
    (certFile interFile : Option String) : Except String Bytes := do
  let corimData ← (fs.read corimFile).mapError
    (fun e => "error loading unsigned CoRIM from " ++ corimFile ++ ": " ++ e)
  let u ← (C.unsignedFromCBOR corimData).mapError
    (fun e => "error decoding unsigned CoRIM from " ++ corimFile ++ ": " ++ e)
  let metaData ← (fs.read metaFile).mapError
    (fun e => "error loading CoRIM Meta from " ++ metaFile ++ ": " ++ e)
  let meta ← (C.metaFromJSON metaData).mapError
    (fun e => "error decoding CoRIM Meta from " ++ metaFile ++ ": " ++ e)
  let _ ← (C.metaValid meta).mapError (fun e => "error validating CoRIM Meta: " ++ e)
  let keyData ← (fs.read keyFile).mapError
    (fun e => "error loading signing key from " ++ keyFile ++ ": " ++ e)
  let key ← (C.keyFromJWK keyData).mapError
    (fun e => "error loading signing key from " ++ keyFile ++ ": " ++ e)
  if optSupplied interFile && !optSupplied certFile then
    Except.error "cannot add intermediate certificates without a signing certificate"
  else do
    let certOpt ←
      match certFile with
      | none => pure none
      | some cf =>
        if cf = "" then pure none
        else do
          let certData ← (fs.read cf).mapError
            (fun e => "error loading signing certificate from " ++ cf ++ ": " ++ e)
          let cert ← (C.certDecode certData).mapError
            (fun e => "error adding signing certificate: " ++ e)
          pure (some cert)
    let inters ←
      match interFile with
      | none => pure []
      | some nf =>
        if nf = "" then pure []
        else do
          let interData ← (fs.read nf).mapError
            (fun e => "error loading intermediate certificates from " ++ nf ++ ": " ++ e)
          let cs ← (C.intermediatesDecode interData).mapError
            (fun e => "error adding intermediate certificates: " ++ e)
          pure cs
    (C.signIt meta u key certOpt inters).mapError (fun e => "error signing CoRIM: " ++ e)

/-- Modelled from the spec: the output file name chosen by the sign command —
the explicit output name when supplied and non-empty, otherwise
signed-(input basename).cbor, the behaviour observed by the sign tests
(input ok.cbor yields signed-ok.cbor). -/
def signOutputName (outputFile : Option String) (corimFile : String) : String :=
  match outputFile with
  | none => "signed-" ++ makeFileName "" corimFile ".cbor"
  | some o => if o = "" then "signed-" ++ makeFileName "" corimFile ".cbor" else o

/-- Modelled from the spec: the sign command body — run the signing pipeline
and, only on success, write the signed CoRIM to the chosen output file.  The
second component records every filesystem write performed. -/
def corimSignRun (C : SignCodecs) (fs : FS) (corimFile metaFile keyFile : String)
    (certFile interFile outputFile : Option String) :
    Except String String × List (String × Bytes) :=
  match corimSignPipeline C fs corimFile metaFile keyFile certFile interFile with
  | .error e => (.error e, [])
  | .ok signedBytes =>
    let name := signOutputName outputFile corimFile
    match fs.write name signedBytes with
    | .error e =>
      (.error ("error saving signed CoRIM to file " ++ name ++ ": " ++ e), [(name, signedBytes)])
    | .ok _ => (.ok name, [(name, signedBytes)])

section Helpers

/-- Reduction of `mapError` on a success value. -/
@[simp] theorem mapError_ok {α : Type} (g : String → String) (a : α) :
    (Except.ok a : Except String α).mapError g = .ok a := rfl

/-- Reduction of `mapError` on an error value. -/
@[simp] theorem mapError_err {α : Type} (g : String → String) (e : String) :
    (Except.error e : Except String α).mapError g = .error (g e) := rfl

/-- Reduction of monadic bind on a success value. -/
@[simp] theorem except_bind_ok {α β : Type} (a : α) (f : α → Except String β) :
    (Except.ok a : Except String α) >>= f = f a := rfl

/-- Reduction of monadic bind on an error value. -/
@[simp] theorem except_bind_err {α β : Type} (e : String) (f : α → Except String β) :
    (Except.error e : Except String α) >>= f = .error e := rfl

/-- Inversion of a successful bind into its two successful stages. -/
theorem bind_eq_ok_iff {α β : Type} (x : Except String α) (f : α → Except String β) (v : β) :
    x >>= f = .ok v ↔ ∃ a, x = .ok a ∧ f a = .ok v := by
  cases x <;> simp

/-- Inversion of a successful `mapError`. -/
theorem mapError_eq_ok_iff {α : Type} (x : Except String α) (g : String → String) (v : α) :
    x.mapError g = .ok v ↔ x = .ok v := by
  cases x <;> simp

/-- Every tag entry yields exactly one event, from any starting index. -/
theorem displayTagsFrom_length (C : DisplayCodecs) :
    ∀ (l : List Bytes) (i : Nat), (displayTagsFrom C i l).length = l.length := by
  intro l
  induction l with
  | nil => intro i; rfl
  | cons e rest ih => intro i; simp [displayTagsFrom, ih]

/-- The event at position `j` of the indexed iteration depends only on the
entry at position `j`. -/
theorem displayTagsFrom_get (C : DisplayCodecs) :
    ∀ (l : List Bytes) (i j : Nat) (hj : j < l.length),
      (displayTagsFrom C i l).get? j = some (displayTagAt C (i + j) (l.get ⟨j, hj⟩)) := by
  intro l
  induction l with
  | nil => intro i j hj; exact absurd hj (by simp)
  | cons e rest ih =>
    intro i j hj
    cases j with
    | zero => simp [displayTagsFrom]
    | succ j' =>
      have hj' : j' < rest.length := by simpa using hj
      have := ih (i + 1) j' hj'
      simp only [displayTagsFrom, List.get?_cons_succ, this, List.get]
      have harith : i + 1 + j' = i + (j' + 1) := by omega
      rw [harith]

/-- Expanding a well-formed CoMID entry dispatches the payload to the CoMID
printer. -/
theorem displayTagAt_comid (C : DisplayCodecs) (i : Nat) (payload : Bytes)
    (hp : payload ≠ []) :
    displayTagAt C i (ComidTag ++ payload) =
      match C.printComid payload (tagHdr i) with
      | .ok _ => .comidOk i
      | .error err => .comidErr i err := by
  have hpos : 0 < payload.length := List.length_pos.mpr hp
  have hnl : ¬ (ComidTag ++ payload).length < 4 := by
    simp only [List.length_append]
    have : ComidTag.length = 3 := rfl
    omega
  have h3 : ComidTag.length = 3 := rfl
  have htake : (ComidTag ++ payload).take 3 = ComidTag := List.take_left' h3
  have hdrop : (ComidTag ++ payload).drop 3 = payload := List.drop_left' h3
  simp only [displayTagAt, hnl, if_false, htake, hdrop, if_pos rfl, ite_false, if_true]

/-- String append acts as append on the underlying character lists. -/
theorem strDataAppend (s t : String) : (s ++ t).data = s.data ++ t.data :=
  String.data_append s t

/-- Tag expansion depends only on the three printers, not on the top-level
decoders. -/
theorem displayTagsFrom_printers_eq (C C' : DisplayCodecs)
    (h1 : C'.printComid = C.printComid) (h2 : C'.printCoswid = C.printCoswid)
    (h3 : C'.printCots = C.printCots) :
    ∀ (l : List Bytes) (i : Nat), displayTagsFrom C' i l = displayTagsFrom C i l := by
  intro l
  induction l with
  | nil => intro i; rfl
  | cons e rest ih => intro i; simp [displayTagsFrom, displayTagAt, h1, h2, h3, ih]

end Helpers

section Fixtures

/-- A filesystem whose every read yields the given bytes and whose writes
succeed. -/
def fsConst (b : Bytes) : FS :=
  { read := fun _ => .ok b, write := fun _ _ => .ok () }

/-- An unsigned CoRIM holding one well-formed CoMID tag and one truncated
tag. -/
def uFix : UnsignedCorim :=
  { profile := none, validity := none, tags := [ComidTag ++ [0xa0], [0xd9]] }

/-- Display codecs for which the signed decode always fails and the unsigned
decode always yields `uFix`. -/
def dcUnsigned : DisplayCodecs :=
  { fromCOSE := fun _ => .error "cose fail"
    fromCBOR := fun _ => .ok uFix
    marshalMeta := fun _ => .ok "meta"
    marshalUnsigned := fun _ => .ok "corim"
    printComid := fun _ _ => .ok ()
    printCoswid := fun _ _ => .ok ()
    printCots := fun _ _ => .ok () }

/-- Display codecs for which both top-level decodes fail. -/
def dcBothFail : DisplayCodecs :=
  { dcUnsigned with
    fromCBOR := fun _ =>
      .error "expected map (CBOR Major Type 5), found Major Type 3" }

/-- Create codecs whose decoders accept anything, whose validators accept
everything, and whose manifest check requires a non-empty tag list. -/
def ccFix : CreateCodecs :=
  { fromJSON := fun _ => .ok { profile := none, validity := none, tags := [] }
    comidFromCBOR := fun b => .ok ⟨b⟩
    coswidFromCBOR := fun b => .ok ⟨b⟩
    cotsFromCBOR := fun b => .ok ⟨b⟩
    comidValid := fun _ => true
    coswidValid := fun _ => true
    cotsValid := fun _ => true
    comidEncode := Comid.blob
    coswidEncode := Coswid.blob
    cotsEncode := Cots.blob
    valid := fun c => if c.tags.isEmpty then .error "empty CoRIM" else .ok ()
    toCBOR := fun _ => .ok [0x01] }

/-- Sign codecs whose every stage succeeds. -/
def scFix : SignCodecs :=
  { unsignedFromCBOR := fun _ => .ok { profile := none, validity := none, tags := [[0xd9]] }
    metaFromJSON := fun b => .ok ⟨b⟩
    metaValid := fun _ => .ok ()
    keyFromJWK := fun b => .ok ⟨b⟩
    certDecode := fun b => .ok ⟨b⟩
    intermediatesDecode := fun b => .ok [⟨b⟩]
    signIt := fun _ _ _ _ _ => .ok [0x02] }

end Fixtures

/-- C1: display first attempts the signed (COSE) decode — when that succeeds
the result does not depend on the unsigned decoder at all; if and only if it
fails the unsigned decode is attempted: when the unsigned decode succeeds
(and JSON re-encoding of the decoded structure succeeds) display returns the
unsigned-manifest view with no error, and when both decodes fail the error
is the second (unsigned) decode error wrapped in the prefix
"error decoding CoRIM (signed or unsigned) from (file): ". -/
theorem display_dispatch_order (C : DisplayCodecs)
    (g : Bytes → Except String UnsignedCorim) (fs : FS) (corimFile : String)
    (showTags : Bool) (b : Bytes) (hread : fs.read corimFile = .ok b) :
    (∀ s, C.fromCOSE b = .ok s →
      display { C with fromCBOR := g } fs corimFile showTags =
        display C fs corimFile showTags)
    ∧ (∀ e1 u j, C.fromCOSE b = .error e1 → C.fromCBOR b = .ok u →
        C.marshalUnsigned u = .ok j →
        display C fs corimFile showTags =
          .ok { fromSigned := false, metaJSON := none, corimJSON := j,
                tagEvents := if showTags then some (displayTags C u.tags) else none })
    ∧ (∀ e1 e2, C.fromCOSE b = .error e1 → C.fromCBOR b = .error e2 →
        display C fs corimFile showTags =
          .error ("error decoding CoRIM (signed or unsigned) from " ++ corimFile ++ ": " ++ e2)) := by
  refine ⟨?_, ?_, ?_⟩
  · intro s hs
    have hev : ∀ (l : List Bytes) (i : Nat),
        displayTagsFrom { C with fromCBOR := g } i l = displayTagsFrom C i l :=
      displayTagsFrom_printers_eq C { C with fromCBOR := g } rfl rfl rfl
    simp [display, hread, hs, displayTags, hev]
  · intro e1 u j h1 h2 h3
    simp [display, hread, h1, h2, h3]
  · intro e1 e2 h1 h2
    simp [display, hread, h1, h2]

/-- C1 witness: with codecs whose signed decode fails and whose unsigned
decode succeeds, display returns the unsigned view without error. -/
theorem display_dispatch_order_witness :
    display dcUnsigned (fsConst [0x42]) "ok.cbor" false =
      .ok { fromSigned := false, metaJSON := none, corimJSON := "corim",
            tagEvents := none } :=
  (display_dispatch_order dcUnsigned (fun _ => Except.error "ignored") (fsConst [0x42])
      "ok.cbor" false [0x42] rfl).2.1 "cose fail" uFix "corim" rfl rfl rfl

/-- C4: a tag entry shorter than 4 bytes is always skipped with the
index-annotated warning event; for a manifest decoded with one well-formed
CoMID tag and one truncated tag, display with tag expansion renders the
CoMID at index 0, emits the skip warning at index 1, and returns Ok. -/
theorem displayTags_tolerant_truncated (C : DisplayCodecs) (fs : FS)
    (corimFile : String) (b : Bytes) (u : UnsignedCorim) (payload short : Bytes)
    (e0 mj : String)
    (hread : fs.read corimFile = .ok b)
    (hcose : C.fromCOSE b = .error e0)
    (hcbor : C.fromCBOR b = .ok u)
    (htags : u.tags = [ComidTag ++ payload, short])
    (hpay : payload ≠ [])
    (hshort : short.length < 4)
    (hprint : C.printComid payload (tagHdr 0) = .ok ())
    (hmar : C.marshalUnsigned u = .ok mj) :
    (display C fs corimFile true =
      .ok { fromSigned := false, metaJSON := none, corimJSON := mj,
            tagEvents := some [.comidOk 0, .skipShort 1] })
    ∧ (∀ (i : Nat) (e : Bytes), e.length < 4 → displayTagAt C i e = .skipShort i) := by
  constructor
  · have h0 : displayTagAt C 0 (ComidTag ++ payload) = .comidOk 0 := by
      rw [displayTagAt_comid C 0 payload hpay, hprint]
    have h1 : displayTagAt C 1 short = .skipShort 1 := by
      simp [displayTagAt, hshort]
    simp [display, hread, hcose, hcbor, hmar, htags, displayTags, displayTagsFrom, h0, h1]
  · intro i e h
    simp [displayTagAt, h]

/-- C4 witness: on the concrete manifest `uFix` holding one well-formed CoMID
tag and one truncated tag, display succeeds with the render and skip
events. -/
theorem displayTags_tolerant_truncated_witness :
    display dcUnsigned (fsConst [0x42]) "tags.cbor" true =
      .ok { fromSigned := false, metaJSON := none, corimJSON := "corim",
            tagEvents := some [.comidOk 0, .skipShort 1] } :=
  (displayTags_tolerant_truncated dcUnsigned (fsConst [0x42]) "tags.cbor" [0x42] uFix
      [0xa0] [0xd9] "cose fail" "corim" rfl rfl rfl rfl (by decide) (by decide) rfl rfl).1

/-- C5: a tag of length at least 4 whose 3-byte identifier equals none of the
registered identifiers is reported as unmatched, carrying its raw identifier
bytes, and every position of the expansion depends only on its own entry, so
subsequent tags are processed unaffected. -/
theorem displayTags_unmatched_identifier (C : DisplayCodecs) (i : Nat) (e : Bytes)
    (tags : List Bytes)
    (hlen : 4 ≤ e.length)
    (hc : e.take 3 ≠ ComidTag) (hs : e.take 3 ≠ CoswidTag) (ht : e.take 3 ≠ CotsTag) :
    displayTagAt C i e = .unmatched (e.take 3)
    ∧ ∀ (j : Nat) (hj : j < tags.length),
        (displayTags C tags).get? j = some (displayTagAt C j (tags.get ⟨j, hj⟩)) := by
  constructor
  · have hnl : ¬ e.length < 4 := by omega
    simp [displayTagAt, hnl, hc, hs, ht]
  · intro j hj
    have := displayTagsFrom_get C tags 0 j hj
    simpa [displayTags] using this

/-- C5 witness: the unregistered identifier d9 01 f8 is reported as
unmatched with its raw bytes. -/
theorem displayTags_unmatched_identifier_witness :
    displayTagAt dcUnsigned 0 [0xd9, 0x01, 0xf8, 0x00] = .unmatched [0xd9, 0x01, 0xf8] :=
  (displayTags_unmatched_identifier dcUnsigned 0 [0xd9, 0x01, 0xf8, 0x00] []
      (by decide) (by decide) (by decide) (by decide)).1

/-- C10: display fails exactly when reading the file fails, or the signed
decode succeeded but a JSON re-encoding failed, or both top-level decodes
failed, or the unsigned decode succeeded but its JSON re-encoding failed;
tag expansion contributes no error path at all: displayTags is a total
function producing exactly one event per tag. -/
theorem display_error_characterization (C : DisplayCodecs) (fs : FS)
    (corimFile : String) (showTags : Bool) (tags : List Bytes) :
    (exceptIsErr (display C fs corimFile showTags) = true ↔
      exceptIsErr (fs.read corimFile) = true ∨
      ∃ b, fs.read corimFile = .ok b ∧
        ((∃ s, C.fromCOSE b = .ok s ∧
            (exceptIsErr (C.marshalMeta s.meta) = true ∨
             exceptIsErr (C.marshalUnsigned s.unsignedCorim) = true))
         ∨ (exceptIsErr (C.fromCOSE b) = true ∧
            (exceptIsErr (C.fromCBOR b) = true ∨
             ∃ u, C.fromCBOR b = .ok u ∧ exceptIsErr (C.marshalUnsigned u) = true))))
    ∧ (displayTags C tags).length = tags.length := by
  constructor
  · cases hr : fs.read corimFile with
    | error e => simp [display, hr, exceptIsErr]
    | ok b =>
      cases hc : C.fromCOSE b with
      | ok s =>
        cases hm : C.marshalMeta s.meta with
        | error e => simp [display, hr, hc, hm, exceptIsErr]
        | ok mj =>
          cases hu : C.marshalUnsigned s.unsignedCorim with
          | error e => simp [display, hr, hc, hm, hu, exceptIsErr]
          | ok cj => simp [display, hr, hc, hm, hu, exceptIsErr]
      | error e1 =>
        cases hb : C.fromCBOR b with
        | error e2 => simp [display, hr, hc, hb, exceptIsErr]
        | ok u =>
          cases hu : C.marshalUnsigned u with
          | error e => simp [display, hr, hc, hb, hu, exceptIsErr]
          | ok cj => simp [display, hr, hc, hb, hu, exceptIsErr]
  · simp [displayTags, displayTagsFrom_length]

/-- C10 witness: with codecs for which both decodes fail, display reports an
error. -/
theorem display_error_characterization_witness :
    exceptIsErr (display dcBothFail (fsConst [0x42]) "bad.txt" false) = true :=
  (display_error_characterization dcBothFail (fsConst [0x42]) "bad.txt" false []).1.mpr
    (Or.inr ⟨[0x42], rfl, Or.inr ⟨rfl, Or.inl rfl⟩⟩)

/-- Inversion of a successful create pipeline into its successful stages. -/
theorem createPipeline_ok_inv (C : CreateCodecs) (fs : FS) (tmpl : String)
    (cf sf tf : List String) (c3 : UnsignedCorim) (b : Bytes)
    (h : createPipeline C fs tmpl cf sf tf = .ok (c3, b)) :
    ∃ td c0 c1 c2, fs.read tmpl = .ok td ∧ C.fromJSON td = .ok c0 ∧
      addComids C fs c0 cf = .ok c1 ∧ addCoswids C fs c1 sf = .ok c2 ∧
      addCotsAll C fs c2 tf = .ok c3 ∧ C.valid c3 = .ok () ∧ C.toCBOR c3 = .ok b := by
  simp only [createPipeline, bind_eq_ok_iff, mapError_eq_ok_iff, pure, Except.pure,
    Except.ok.injEq, Prod.mk.injEq] at h
  obtain ⟨td, htd, c0, hc0, c1, hc1, c2, hc2, c3x, hc3, un, hv, bx, hb, hcx, hbx⟩ := h
  cases un
  subst hcx
  subst hbx
  exact ⟨td, c0, c1, c2, htd, hc0, hc1, hc2, hc3, hv, hb⟩

/-- C3: the create workflow is atomic — a write happens only when reading and
decoding the template, every artifact loop, the Valid check, and the CBOR
encoding all succeeded, and then it is the single output-file write; any
pipeline-stage failure produces an error result with no writes; and a Valid
failure aborts with the validation error (for every toCBOR, exhibiting that
Valid is checked before encoding). -/
theorem create_atomic (C : CreateCodecs) (fs : FS) (tmpl : String)
    (cf sf tf : List String) (out : Option String) :
    ((corimTemplateToCBOR C fs tmpl cf sf tf out).2 ≠ [] →
      ∃ td c0 c1 c2 c3 b, fs.read tmpl = .ok td ∧ C.fromJSON td = .ok c0 ∧
        addComids C fs c0 cf = .ok c1 ∧ addCoswids C fs c1 sf = .ok c2 ∧
        addCotsAll C fs c2 tf = .ok c3 ∧ C.valid c3 = .ok () ∧ C.toCBOR c3 = .ok b ∧
        (corimTemplateToCBOR C fs tmpl cf sf tf out).2 = [(createOutputName out tmpl, b)])
    ∧ (∀ e, createPipeline C fs tmpl cf sf tf = .error e →
        corimTemplateToCBOR C fs tmpl cf sf tf out = (.error e, []))
    ∧ (∀ td c0 c1 c2 c3 e, fs.read tmpl = .ok td → C.fromJSON td = .ok c0 →
        addComids C fs c0 cf = .ok c1 → addCoswids C fs c1 sf = .ok c2 →
        addCotsAll C fs c2 tf = .ok c3 → C.valid c3 = .error e →
        corimTemplateToCBOR C fs tmpl cf sf tf out =
          (.error ("error validating CoRIM: " ++ e), [])) := by
  refine ⟨?_, ?_, ?_⟩
  · intro hw
    cases hp : createPipeline C fs tmpl cf sf tf with
    | error e => simp [corimTemplateToCBOR, hp] at hw
    | ok cb =>
      obtain ⟨c3, b⟩ := cb
      obtain ⟨td, c0, c1, c2, htd, hc0, hc1, hc2, hc3, hv, hb⟩ :=
        createPipeline_ok_inv C fs tmpl cf sf tf c3 b hp
      refine ⟨td, c0, c1, c2, c3, b, htd, hc0, hc1, hc2, hc3, hv, hb, ?_⟩
      cases hwr : fs.write (createOutputName out tmpl) b with
      | error e => simp [corimTemplateToCBOR, hp, hwr]
      | ok u => cases u; simp [corimTemplateToCBOR, hp, hwr]
  · intro e hp
    simp [corimTemplateToCBOR, hp]
  · intro td c0 c1 c2 c3 e htd hc0 hc1 hc2 hc3 hv
    have hp : createPipeline C fs tmpl cf sf tf = .error ("error validating CoRIM: " ++ e) := by
      simp [createPipeline, htd, hc0, hc1, hc2, hc3, hv]
    simp [corimTemplateToCBOR, hp]

/-- C3 witness: a run of the concrete create codecs in which every stage
succeeds performs exactly the single final output write. -/
theorem create_atomic_witness :
    ∃ td c0 c1 c2 c3 b, (fsConst [0xa0]).read "t1.json" = .ok td ∧
      ccFix.fromJSON td = .ok c0 ∧
      addComids ccFix (fsConst [0xa0]) c0 ["c1.cbor"] = .ok c1 ∧
      addCoswids ccFix (fsConst [0xa0]) c1 [] = .ok c2 ∧
      addCotsAll ccFix (fsConst [0xa0]) c2 [] = .ok c3 ∧
      ccFix.valid c3 = .ok () ∧ ccFix.toCBOR c3 = .ok b ∧
      (corimTemplateToCBOR ccFix (fsConst [0xa0]) "t1.json" ["c1.cbor"] [] [] none).2 =
        [(createOutputName none "t1.json", b)] :=
  (create_atomic ccFix (fsConst [0xa0]) "t1.json" ["c1.cbor"] [] [] none).1 (by decide)

/-- C6: the create command fails with the usage error "no CoMID, CoSWID or
CoTS files or folders supplied" when a template is supplied but zero
artifact files or directories are, for every filesystem (so before touching
any file) and with no write; and when the supplied files and directories
resolve through filesList to an empty list, it fails with "no CoMID, CoSWID
or CoTS files found" with no write. -/
theorem create_usage_errors (C : CreateCodecs) (fs : FS)
    (flist : FS → List String → List String → String → List String) (a : CreateArgs)
    (tn : String) (htf : a.templateFile = some tn) (hne : tn ≠ "") :
    (a.comidFiles = [] → a.comidDirs = [] → a.coswidFiles = [] → a.coswidDirs = [] →
      a.cotsFiles = [] → a.cotsDirs = [] →
      corimCreateRun C fs flist a =
        (.error "no CoMID, CoSWID or CoTS files or folders supplied", []))
    ∧ (checkCorimCreateArgs a = .ok () →
      flist fs a.comidFiles a.comidDirs ".cbor" = [] →
      flist fs a.coswidFiles a.coswidDirs ".cbor" = [] →
      flist fs a.cotsFiles a.cotsDirs ".cbor" = [] →
      corimCreateRun C fs flist a = (.error "no CoMID, CoSWID or CoTS files found", [])) := by
  constructor
  · intro h1 h2 h3 h4 h5 h6
    have hck : checkCorimCreateArgs a =
        .error "no CoMID, CoSWID or CoTS files or folders supplied" := by
      simp [checkCorimCreateArgs, htf, hne, h1, h2, h3, h4, h5, h6]
    simp [corimCreateRun, hck]
  · intro hck hf1 hf2 hf3
    simp [corimCreateRun, hck, hf1, hf2, hf3]

/-- C6 witness: with a template but no artifact inputs the create command
fails with the usage error and writes nothing, on a filesystem that would
satisfy every read. -/
theorem create_usage_errors_witness :
    corimCreateRun ccFix (fsConst [0xa0]) (fun _ fls _ _ => fls)
      { templateFile := some "t1.json", comidFiles := [], comidDirs := [],
        coswidFiles := [], coswidDirs := [], cotsFiles := [], cotsDirs := [],
        outputFile := none } =
      (.error "no CoMID, CoSWID or CoTS files or folders supplied", []) :=
  (create_usage_errors ccFix (fsConst [0xa0]) (fun _ fls _ _ => fls)
      { templateFile := some "t1.json", comidFiles := [], comidDirs := [],
        coswidFiles := [], coswidDirs := [], cotsFiles := [], cotsDirs := [],
        outputFile := none } "t1.json" rfl (by decide)).1 rfl rfl rfl rfl rfl rfl

/-- C2: for every combination of readable and decodable CoRIM, Meta and key
inputs, invoking sign with intermediates supplied and no signing certificate
fails with exactly the message "cannot add intermediate certificates without
a signing certificate" and performs no write. -/
theorem sign_intermediates_without_cert (C : SignCodecs) (fs : FS)
    (corimFile metaFile keyFile : String) (certFile interFile outputFile : Option String)
    (cb mb kb : Bytes) (u : UnsignedCorim) (meta : Meta) (key : SigKey)
    (h1 : fs.read corimFile = .ok cb) (h2 : C.unsignedFromCBOR cb = .ok u)
    (h3 : fs.read metaFile = .ok mb) (h4 : C.metaFromJSON mb = .ok meta)
    (h5 : C.metaValid meta = .ok ()) (h6 : fs.read keyFile = .ok kb)
    (h7 : C.keyFromJWK kb = .ok key)
    (hint : optSupplied interFile = true) (hcert : optSupplied certFile = false) :
    corimSignRun C fs corimFile metaFile keyFile certFile interFile outputFile =
      (.error "cannot add intermediate certificates without a signing certificate", []) := by
  have hp : corimSignPipeline C fs corimFile metaFile keyFile certFile interFile =
      .error "cannot add intermediate certificates without a signing certificate" := by
    simp [corimSignPipeline, h1, h2, h3, h4, h5, h6, h7, hint, hcert]
  simp [corimSignRun, hp]

/-- C2 witness: the concrete sign codecs with intermediates supplied and no
certificate fail with exactly the chain-precondition message. -/
theorem sign_intermediates_without_cert_witness :
    corimSignRun scFix (fsConst [0x01]) "ok.cbor" "ok.json" "ok.jwk" none
      (some "intermediates.der") none =
      (.error "cannot add intermediate certificates without a signing certificate", []) :=
  sign_intermediates_without_cert scFix (fsConst [0x01]) "ok.cbor" "ok.json" "ok.jwk"
    none (some "intermediates.der") none [0x01] [0x01] [0x01]
    { profile := none, validity := none, tags := [[0xd9]] } ⟨[0x01]⟩ ⟨[0x01]⟩
    rfl rfl rfl rfl rfl rfl rfl (by decide) rfl

/-- C8: when no explicit output name is given, create writes to the template
basename with a .cbor extension and sign writes to signed-(input
basename).cbor; when an explicit non-empty output name is given, exactly
that name is used; concretely, template corim-template.json yields
corim-template.cbor and input ok.cbor yields signed-ok.cbor. -/
theorem output_file_naming (C : CreateCodecs) (S : SignCodecs) (fs : FS)
    (tmpl o name : String) (cf sf tf : List String)
    (corimFile metaFile keyFile : String) (certFile interFile : Option String) :
    ((corimTemplateToCBOR C fs tmpl cf sf tf none).1 = .ok name →
      name = makeFileName "" tmpl ".cbor")
    ∧ (o ≠ "" → (corimTemplateToCBOR C fs tmpl cf sf tf (some o)).1 = .ok name →
      name = o)
    ∧ makeFileName "" "corim-template.json" ".cbor" = "corim-template.cbor"
    ∧ ((corimSignRun S fs corimFile metaFile keyFile certFile interFile none).1 = .ok name →
      name = "signed-" ++ makeFileName "" corimFile ".cbor")
    ∧ (o ≠ "" →
      (corimSignRun S fs corimFile metaFile keyFile certFile interFile (some o)).1 = .ok name →
      name = o)
    ∧ "signed-" ++ makeFileName "" "ok.cbor" ".cbor" = "signed-ok.cbor" := by
  refine ⟨?_, ?_, by decide, ?_, ?_, by decide⟩
  · intro h
    cases hp : createPipeline C fs tmpl cf sf tf with
    | error e => simp [corimTemplateToCBOR, hp] at h
    | ok cb =>
      obtain ⟨c3, b⟩ := cb
      cases hwr : fs.write (makeFileName "" tmpl ".cbor") b with
      | error e => simp [corimTemplateToCBOR, hp, createOutputName, hwr] at h
      | ok u =>
        cases u
        simp [corimTemplateToCBOR, hp, createOutputName, hwr] at h
        exact h.symm
  · intro ho h
    cases hp : createPipeline C fs tmpl cf sf tf with
    | error e => simp [corimTemplateToCBOR, hp] at h
    | ok cb =>
      obtain ⟨c3, b⟩ := cb
      cases hwr : fs.write o b with
      | error e => simp [corimTemplateToCBOR, hp, createOutputName, ho, hwr] at h
      | ok u =>
        cases u
        simp [corimTemplateToCBOR, hp, createOutputName, ho, hwr] at h
        exact h.symm
  · intro h
    cases hp : corimSignPipeline S fs corimFile metaFile keyFile certFile interFile with
    | error e => simp [corimSignRun, hp] at h
    | ok sb =>
      cases hwr : fs.write ("signed-" ++ makeFileName "" corimFile ".cbor") sb with
      | error e => simp [corimSignRun, hp, signOutputName, hwr] at h
      | ok u =>
        cases u
        simp [corimSignRun, hp, signOutputName, hwr] at h
        exact h.symm
  · intro ho h
    cases hp : corimSignPipeline S fs corimFile metaFile keyFile certFile interFile with
    | error e => simp [corimSignRun, hp] at h
    | ok sb =>
      cases hwr : fs.write o sb with
      | error e => simp [corimSignRun, hp, signOutputName, ho, hwr] at h
      | ok u =>
        cases u
        simp [corimSignRun, hp, signOutputName, ho, hwr] at h
        exact h.symm

/-- C8 witness: a concrete successful create run with no explicit output name
writes to the template basename with a .cbor extension. -/
theorem output_file_naming_witness :
    "t1.cbor" = makeFileName "" "t1.json" ".cbor" :=
  (output_file_naming ccFix scFix (fsConst [0xa0]) "t1.json" "x" "t1.cbor"
      ["c1.cbor"] [] [] "ok.cbor" "ok.json" "ok.jwk" none none).1 rfl

/-- Reading and decoding the CoMID files in list order, without touching a
manifest. -/
def loadComids (C : CreateCodecs) (fs : FS) : List String → Except String (List Comid)
  | [] => .ok []
  | f :: rest => do
    let b ← (fs.read f).mapError (fun e => "error loading CoMID from " ++ f ++ ": " ++ e)
    let m ← (C.comidFromCBOR b).mapError (fun e => "error loading CoMID from " ++ f ++ ": " ++ e)
    let ms ← loadComids C fs rest
    pure (m :: ms)

/-- Reading and decoding the CoSWID files in list order. -/
def loadCoswids (C : CreateCodecs) (fs : FS) : List String → Except String (List Coswid)
  | [] => .ok []
  | f :: rest => do
    let b ← (fs.read f).mapError (fun e => "error loading CoSWID from " ++ f ++ ": " ++ e)
    let s ← (C.coswidFromCBOR b).mapError (fun e => "error loading CoSWID from " ++ f ++ ": " ++ e)
    let ss ← loadCoswids C fs rest
    pure (s :: ss)

/-- Reading and decoding the CoTS files in list order. -/
def loadCotsAll (C : CreateCodecs) (fs : FS) : List String → Except String (List Cots)
  | [] => .ok []
  | f :: rest => do
    let b ← (fs.read f).mapError (fun e => "error loading CoTS from " ++ f ++ ": " ++ e)
    let t ← (C.cotsFromCBOR b).mapError (fun e => "error loading CoTS from " ++ f ++ ": " ++ e)
    let ts ← loadCotsAll C fs rest
    pure (t :: ts)

/-- A successful CoMID loop appends exactly the comid-tagged encodings of the
loaded files, in list order, after the existing tags, leaving the other
manifest fields unchanged. -/
theorem addComids_tags (C : CreateCodecs) (fs : FS) :
    ∀ (files : List String) (c c' : UnsignedCorim), addComids C fs c files = .ok c' →
      ∃ ms, loadComids C fs files = .ok ms ∧
        c'.tags = c.tags ++ ms.map (fun m => ComidTag ++ C.comidEncode m) ∧
        c'.profile = c.profile ∧ c'.validity = c.validity := by
  intro files
  induction files with
  | nil =>
    intro c c' h
    simp only [addComids] at h
    cases h
    exact ⟨[], rfl, by simp, rfl, rfl⟩
  | cons f rest ih =>
    intro c c' h
    simp only [addComids, bind_eq_ok_iff, mapError_eq_ok_iff] at h
    obtain ⟨b, hb, m, hm, h2⟩ := h
    cases hAdd : AddComid C c m with
    | none => rw [hAdd] at h2; cases h2
    | some c2 =>
      rw [hAdd] at h2
      obtain ⟨ms, hms, htags, hprof, hval⟩ := ih c2 c' h2
      simp only [AddComid] at hAdd
      cases hvld : C.comidValid m with
      | false => rw [hvld] at hAdd; cases hAdd
      | true =>
        rw [hvld] at hAdd
        simp only [if_true] at hAdd
        cases hAdd
        refine ⟨m :: ms, ?_, ?_, ?_, ?_⟩
        · simp [loadComids, hb, hm, hms]
        · simp [htags, List.append_assoc]
        · simpa using hprof
        · simpa using hval

/-- A successful CoSWID loop appends exactly the coswid-tagged encodings of
the loaded files, in list order. -/
theorem addCoswids_tags (C : CreateCodecs) (fs : FS) :
    ∀ (files : List String) (c c' : UnsignedCorim), addCoswids C fs c files = .ok c' →
      ∃ ss, loadCoswids C fs files = .ok ss ∧
        c'.tags = c.tags ++ ss.map (fun s => CoswidTag ++ C.coswidEncode s) ∧
        c'.profile = c.profile ∧ c'.validity = c.validity := by
  intro files
  induction files with
  | nil =>
    intro c c' h
    simp only [addCoswids] at h
    cases h
    exact ⟨[], rfl, by simp, rfl, rfl⟩
  | cons f rest ih =>
    intro c c' h
    simp only [addCoswids, bind_eq_ok_iff, mapError_eq_ok_iff] at h
    obtain ⟨b, hb, s, hs, h2⟩ := h
    cases hAdd : AddCoswid C c s with
    | none => rw [hAdd] at h2; cases h2
    | some c2 =>
      rw [hAdd] at h2
      obtain ⟨ss, hss, htags, hprof, hval⟩ := ih c2 c' h2
      simp only [AddCoswid] at hAdd
      cases hvld : C.coswidValid s with
      | false => rw [hvld] at hAdd; cases hAdd
      | true =>
        rw [hvld] at hAdd
        simp only [if_true] at hAdd
        cases hAdd
        refine ⟨s :: ss, ?_, ?_, ?_, ?_⟩
        · simp [loadCoswids, hb, hs, hss]
        · simp [htags, List.append_assoc]
        · simpa using hprof
        · simpa using hval

/-- A successful CoTS loop appends exactly the cots-tagged encodings of the
loaded files, in list order. -/
theorem addCotsAll_tags (C : CreateCodecs) (fs : FS) :
    ∀ (files : List String) (c c' : UnsignedCorim), addCotsAll C fs c files = .ok c' →
      ∃ ts, loadCotsAll C fs files = .ok ts ∧
        c'.tags = c.tags ++ ts.map (fun t => CotsTag ++ C.cotsEncode t) ∧
        c'.profile = c.profile ∧ c'.validity = c.validity := by
  intro files
  induction files with
  | nil =>
    intro c c' h
    simp only [addCotsAll] at h
    cases h
    exact ⟨[], rfl, by simp, rfl, rfl⟩
  | cons f rest ih =>
    intro c c' h
    simp only [addCotsAll, bind_eq_ok_iff, mapError_eq_ok_iff] at h
    obtain ⟨b, hb, t, ht, h2⟩ := h
    cases hAdd : AddCots C c t with
    | none => rw [hAdd] at h2; cases h2
    | some c2 =>
      rw [hAdd] at h2
      obtain ⟨ts, hts, htags, hprof, hval⟩ := ih c2 c' h2
      simp only [AddCots] at hAdd
      cases hvld : C.cotsValid t with
      | false => rw [hvld] at hAdd; cases hAdd
      | true =>
        rw [hvld] at hAdd
        simp only [if_true] at hAdd
        cases hAdd
        refine ⟨t :: ts, ?_, ?_, ?_, ?_⟩
        · simp [loadCotsAll, hb, ht, hts]
        · simp [htags, List.append_assoc]
        · simpa using hprof
        · simpa using hval

/-- C9: in a successful create pipeline the assembled tag sequence is the
template tags followed by all comid-tagged payloads of the CoMID files in
their list order, then all coswid-tagged payloads, then all cots-tagged
payloads — kinds are never interleaved. -/
theorem create_tags_grouped_by_kind (C : CreateCodecs) (fs : FS) (tmpl : String)
    (cf sf tf : List String) (c3 : UnsignedCorim) (b : Bytes)
    (h : createPipeline C fs tmpl cf sf tf = .ok (c3, b)) :
    ∃ td c0 ms ss ts, fs.read tmpl = .ok td ∧ C.fromJSON td = .ok c0 ∧
      loadComids C fs cf = .ok ms ∧ loadCoswids C fs sf = .ok ss ∧
      loadCotsAll C fs tf = .ok ts ∧
      c3.tags = c0.tags ++ ms.map (fun m => ComidTag ++ C.comidEncode m)
        ++ ss.map (fun s => CoswidTag ++ C.coswidEncode s)
        ++ ts.map (fun t => CotsTag ++ C.cotsEncode t) := by
  obtain ⟨td, c0, c1, c2, htd, hc0, hc1, hc2, hc3, _, _⟩ :=
    createPipeline_ok_inv C fs tmpl cf sf tf c3 b h
  obtain ⟨ms, hms, htags1, _, _⟩ := addComids_tags C fs cf c0 c1 hc1
  obtain ⟨ss, hss, htags2, _, _⟩ := addCoswids_tags C fs sf c1 c2 hc2
  obtain ⟨ts, hts, htags3, _, _⟩ := addCotsAll_tags C fs tf c2 c3 hc3
  exact ⟨td, c0, ms, ss, ts, htd, hc0, hms, hss, hts, by
    simp [htags3, htags2, htags1, List.append_assoc]⟩

/-- C9 witness: a concrete pipeline run over one file of each kind yields the
template tags followed by the comid-, coswid-, then cots-tagged payloads. -/
theorem create_tags_grouped_by_kind_witness :
    ∃ td c0 ms ss ts, (fsConst [0xa0]).read "t1.json" = .ok td ∧
      ccFix.fromJSON td = .ok c0 ∧
      loadComids ccFix (fsConst [0xa0]) ["m.cbor"] = .ok ms ∧
      loadCoswids ccFix (fsConst [0xa0]) ["s.cbor"] = .ok ss ∧
      loadCotsAll ccFix (fsConst [0xa0]) ["t.cbor"] = .ok ts ∧
      ({ profile := none, validity := none,
         tags := [ComidTag ++ [0xa0], CoswidTag ++ [0xa0], CotsTag ++ [0xa0]] } :
          UnsignedCorim).tags =
        c0.tags ++ ms.map (fun m => ComidTag ++ ccFix.comidEncode m)
          ++ ss.map (fun s => CoswidTag ++ ccFix.coswidEncode s)
          ++ ts.map (fun t => CotsTag ++ ccFix.cotsEncode t) :=
  create_tags_grouped_by_kind ccFix (fsConst [0xa0]) "t1.json" ["m.cbor"] ["s.cbor"]
    ["t.cbor"]
    { profile := none, validity := none,
      tags := [ComidTag ++ [0xa0], CoswidTag ++ [0xa0], CotsTag ++ [0xa0]] }
    [0x01] rfl

/-- C7 counterexample: the create command surfaces the usage error
"no CoRIM template supplied" to the caller, and that string has no
decomposition of the form "error (verb)ing (noun) from (path): (cause)". -/
theorem surfaced_error_not_uniform :
    (corimCreateRun ccFix (fsConst [0xa0]) (fun _ fls _ _ => fls)
      { templateFile := none, comidFiles := ["c1.cbor"], comidDirs := [],
        coswidFiles := [], coswidDirs := [], cotsFiles := [], cotsDirs := [],
        outputFile := none }).1 = .error "no CoRIM template supplied"
    ∧ ∀ v n p c : String,
        "no CoRIM template supplied" ≠
          "error " ++ v ++ "ing " ++ n ++ " from " ++ p ++ ": " ++ c := by
  constructor
  · rfl
  · intro v n p c h
    have hd := congrArg String.data h
    simp only [String.data_append] at hd
    have h3 : (some 'n' : Option Char) = some 'e' := congrArg List.head? hd
    exact absurd h3 (by decide)

/-- C7 (amended): every error surfaced by the display operation is a
human-readable string of the form "error (verb)ing (noun) from (path):
(underlying cause)"; usage-check and precondition errors of the other
commands are plain messages without this shape. -/
theorem display_errors_uniform_form (C : DisplayCodecs) (fs : FS)
    (corimFile : String) (showTags : Bool) (e : String)
    (h : display C fs corimFile showTags = .error e) :
    ∃ v n p c, e = "error " ++ v ++ "ing " ++ n ++ " from " ++ p ++ ": " ++ c := by
  unfold display at h
  cases hr : fs.read corimFile with
  | error e0 =>
    simp only [hr] at h
    injection h with h'
    exact ⟨"load", "CoRIM", corimFile, e0, h'.symm⟩
  | ok b =>
    simp only [hr] at h
    cases hc : C.fromCOSE b with
    | ok s =>
      simp only [hc] at h
      cases hm : C.marshalMeta s.meta with
      | error e0 =>
        simp only [hm] at h
        injection h with h'
        exact ⟨"encod", "CoRIM Meta", corimFile, e0, h'.symm⟩
      | ok mj =>
        simp only [hm] at h
        cases hu : C.marshalUnsigned s.unsignedCorim with
        | error e0 =>
          simp only [hu] at h
          injection h with h'
          exact ⟨"encod", "unsigned CoRIM", corimFile, e0, h'.symm⟩
        | ok cj => simp only [hu] at h; cases h
    | error e1 =>
      simp only [hc] at h
      cases hb : C.fromCBOR b with
      | error e2 =>
        simp only [hb] at h
        injection h with h'
        exact ⟨"decod", "CoRIM (signed or unsigned)", corimFile, e2, h'.symm⟩
      | ok u =>
        simp only [hb] at h
        cases hu : C.marshalUnsigned u with
        | error e0 =>
          simp only [hu] at h
          injection h with h'
          exact ⟨"encod", "unsigned CoRIM", corimFile, e0, h'.symm⟩
        | ok cj => simp only [hu] at h; cases h

/-- C7 amended-claim witness: the dual-decode failure error of display
decomposes into the uniform shape. -/
theorem display_errors_uniform_form_witness :
    ∃ v n p c,
      "error decoding CoRIM (signed or unsigned) from bad.txt: expected map (CBOR Major Type 5), found Major Type 3" =
        "error " ++ v ++ "ing " ++ n ++ " from " ++ p ++ ": " ++ c :=
  display_errors_uniform_form dcBothFail (fsConst [0x42]) "bad.txt" false
    "error decoding CoRIM (signed or unsigned) from bad.txt: expected map (CBOR Major Type 5), found Major Type 3"
    rfl

end Cocli
